import Mathlib

/-!
Verification of the stream-failover supervisor in `stream_manager.py` and the
status endpoint of `app.py` (repository ToBee94/twitch_fallback).

The Python code is shallowly embedded: pure command builders become Lean
functions on a `Config` record; the monitor loop's single tick becomes a
function from an environment (probe result, process exit observations) and a
manager state to the next state plus a trace of observable actions; Python
`int(...)` parsing (which may raise `ValueError`) is modelled by an
`Option Int`-valued parser restricted to ASCII input.
-/

namespace TwitchFallback

/-- ASCII whitespace characters stripped by Python `int(str)` before parsing. -/
def isPySpace (c : Char) : Bool :=
  c = ' ' || c = '\t' || c = '\n' || c = '\r' || c = '\x0b' || c = '\x0c'

/-- ASCII decimal digit test. -/
def isAsciiDigit (c : Char) : Bool :=
  48 ≤ c.toNat && c.toNat ≤ 57

/-- Numeric value of an ASCII digit character. -/
def pyDigitVal (c : Char) : Nat := c.toNat - 48

/-- Tail of Python's integer-literal digit grammar: digits with single
underscores allowed between digits (no leading, trailing or doubled
underscore), accumulating the value. -/
def digitsUAux : Nat → List Char → Option Nat
  | acc, [] => some acc
  | acc, c :: rest =>
    if c = '_' then
      match rest with
      | [] => none
      | d :: rest2 =>
        if isAsciiDigit d then digitsUAux (acc * 10 + pyDigitVal d) rest2 else none
    else
      if isAsciiDigit c then digitsUAux (acc * 10 + pyDigitVal c) rest else none

/-- Python integer-literal digit body: nonempty, starts with a digit,
underscores only between digits. -/
def digitsU : List Char → Option Nat
  | [] => none
  | c :: rest =>
    if isAsciiDigit c then digitsUAux (pyDigitVal c) rest else none

/-- Strip leading and trailing ASCII whitespace, as Python `int(str)` does
before parsing. -/
def stripPy (l : List Char) : List Char :=
  ((l.dropWhile isPySpace).reverse.dropWhile isPySpace).reverse

/-- Model of Python `int(s)` for base 10 on ASCII strings: strip surrounding
whitespace, accept an optional sign, then a digit body per `digitsU`;
`none` models the `ValueError` raised on any other input. -/
def pyIntOfString (s : String) : Option Int :=
  match stripPy s.data with
  | [] => none
  | c :: rest =>
    if c = '+' then (digitsU rest).map (fun v => (v : Int))
    else if c = '-' then (digitsU rest).map (fun v => -(v : Int))
    else (digitsU (c :: rest)).map (fun v => (v : Int))

/-- Model of Python `s.rstrip('k')`: remove every trailing `'k'`. -/
def rstripK (s : String) : String :=
  String.mk ((s.data.reverse.dropWhile (fun c => c = 'k')).reverse)

/-- Value of a list of ASCII digit characters read in base 10. -/
def natFromDigits (ds : List Char) : Nat :=
  ds.foldl (fun a c => a * 10 + pyDigitVal c) 0

/-- Configuration snapshot loaded by `StreamManager._load_config`
(stream_manager.py lines 44-71): required keys plus the defaulted ones. -/
structure Config where
  rtmp_input_url : String
  twitch_rtmp_url : String
  twitch_stream_key : String
  fallback_type : String
  fallback_image : String
  fallback_video : String
  rtmp_timeout : Nat
  check_interval : Nat
  video_bitrate : String
  audio_bitrate : String
  fps : Int
  resolution : String
  multi_audio_enabled : Bool
  audio_tracks : Int
  audio_sources : List String
deriving DecidableEq

/-- The local RTMP endpoint constant set in `StreamManager.__init__`
(stream_manager.py line 33). -/
def local_rtmp : String := "rtmp://rtmp:1935/live"

/-- A configuration holding exactly the default values that
`_load_config` fills in (stream_manager.py lines 56-69), with the three
required keys set to placeholder values. -/
def defaultConfig : Config where
  rtmp_input_url := "rtmp://localhost:1935/live"
  twitch_rtmp_url := "rtmp://live.twitch.tv/app"
  twitch_stream_key := "streamkey"
  fallback_type := "image"
  fallback_image := "media/fallback.jpg"
  fallback_video := "media/fallback.mp4"
  rtmp_timeout := 5
  check_interval := 2
  video_bitrate := "2500k"
  audio_bitrate := "160k"
  fps := 30
  resolution := "1920x1080"
  multi_audio_enabled := false
  audio_tracks := 1
  audio_sources := []

/-- Outcome of the bounded `subprocess.run` invocation inside
`check_rtmp_stream`: the probe tool completed with an exit code, the
bounded wait timed out (`subprocess.TimeoutExpired`), or the invocation
raised some other exception. -/
inductive RunOutcome where
  | completed (returncode : Int)
  | timedOut
  | raised
deriving DecidableEq

/-- The ffprobe argument list built by `check_rtmp_stream`
(stream_manager.py lines 101-108). -/
def check_rtmp_cmd (cfg : Config) : List String :=
  ["ffprobe", "-v", "error",
   "-i", cfg.rtmp_input_url ++ "/obs",
   "-show_entries", "stream=codec_type",
   "-of", "default=noprint_wrappers=1",
   "-rw_timeout", toString (cfg.rtmp_timeout * 1000000)]

/-- Model of `StreamManager.check_rtmp_stream` (stream_manager.py lines
94-125): the whole body sits in a `try` whose `except Exception` returns
`False`, so the result is `True` exactly when the probe subprocess
completed with return code 0. -/
def check_rtmp_stream (o : RunOutcome) : Bool :=
  match o with
  | .completed rc => rc == 0
  | .timedOut => false
  | .raised => false

/-- One per-track option block of `_build_audio_encoding_options`
(stream_manager.py lines 135-145): the loop body for track index `i`. -/
def audio_track_block (audio_bitrate : String) (i : Nat) : List String :=
  ["-map", "0:a:" ++ toString i ++ "?",
   "-c:a:" ++ toString i, "aac",
   "-b:a:" ++ toString i, audio_bitrate,
   "-ar:" ++ toString i, "44100",
   "-ac:" ++ toString i, "2"]

/-- Model of `StreamManager._build_audio_encoding_options`
(stream_manager.py lines 127-155): in multi-audio mode the loop runs
`range(min(audio_tracks, 3))` times (Python `range` is empty for
non-positive bounds, modelled via `Int.toNat`); otherwise a single
unindexed track block is emitted. -/
def build_audio_encoding_options (cfg : Config) : List String :=
  if cfg.multi_audio_enabled then
    (List.range (min cfg.audio_tracks 3).toNat).flatMap (audio_track_block cfg.audio_bitrate)
  else
    ["-c:a", "aac", "-b:a", cfg.audio_bitrate, "-ar", "44100", "-ac", "2"]

/-- The video encoding option block (stream_manager.py lines 174-184,
repeated verbatim at lines 214-224 and 244-254 in the two fallback
branches); `bn` is the value of `int(video_bitrate.rstrip('k'))`. -/
def video_encoding_block (cfg : Config) (bn : Int) : List String :=
  ["-c:v", "libx264", "-preset", "veryfast",
   "-b:v", cfg.video_bitrate,
   "-maxrate", cfg.video_bitrate,
   "-bufsize", toString (bn * 2) ++ "k",
   "-s", cfg.resolution,
   "-r", toString cfg.fps,
   "-g", toString (cfg.fps * 2),
   "-pix_fmt", "yuv420p"]

/-- The lavfi silent-audio source string used in the fallback-image branch
(stream_manager.py lines 209 and 211). -/
def anullsrc_arg : String := "anullsrc=channel_layout=stereo:sample_rate=44100"

/-- Model of `StreamManager.build_input_command` (stream_manager.py lines
157-265). Every branch evaluates `int(video_bitrate.rstrip('k'))` while
building `-bufsize`; the parse is hoisted to the front because a
`ValueError` there aborts the whole call in each branch (`none`). -/
def build_input_command (cfg : Config) (use_rtmp_input : Bool) : Option (List String) :=
  match pyIntOfString (rstripK cfg.video_bitrate) with
  | none => none
  | some bn =>
    if use_rtmp_input then
      some (["ffmpeg", "-i", cfg.rtmp_input_url ++ "/obs"]
        ++ cfg.audio_sources.flatMap (fun a => ["-i", a])
        ++ video_encoding_block cfg bn
        ++ build_audio_encoding_options cfg
        ++ ["-f", "flv", local_rtmp])
    else
      if cfg.fallback_type = "image" then
        some (["ffmpeg", "-loop", "1", "-framerate", toString cfg.fps,
               "-i", cfg.fallback_image]
          ++ (if cfg.multi_audio_enabled then
                (List.range (min cfg.audio_tracks 3).toNat).flatMap
                  (fun _ => ["-f", "lavfi", "-i", anullsrc_arg])
              else ["-f", "lavfi", "-i", anullsrc_arg])
          ++ video_encoding_block cfg bn
          ++ build_audio_encoding_options cfg
          ++ ["-shortest"]
          ++ ["-f", "flv", local_rtmp])
      else
        some (["ffmpeg", "-stream_loop", "-1", "-re", "-i", cfg.fallback_video]
          ++ video_encoding_block cfg bn
          ++ build_audio_encoding_options cfg
          ++ ["-f", "flv", local_rtmp])

/-- Model of `StreamManager.build_relay_command` (stream_manager.py lines
267-282). -/
def build_relay_command (cfg : Config) : List String :=
  ["ffmpeg", "-re", "-i", local_rtmp, "-c", "copy", "-f", "flv",
   cfg.twitch_rtmp_url ++ "/" ++ cfg.twitch_stream_key]

/-- An Input pipeline process handle: the spawned process identity together
with the `use_rtmp_input` mode it was started with (recorded by
`start_input_stream` into `is_rtmp_input_active`). -/
structure ProcI where
  pid : Nat
  use_rtmp : Bool
deriving DecidableEq

/-- The mutable fields of `StreamManager` that the monitor loop reads and
writes: the two process handles and the active-source flag. `next_pid`
is a fresh-name supply standing for `subprocess.Popen` returning a new
process. -/
structure MState where
  input_process : Option ProcI
  relay_process : Option Nat
  is_rtmp_input_active : Bool
  next_pid : Nat
deriving DecidableEq

/-- Observable actions a monitor-loop tick (or a start call) performs on the
outside world, in order: probing the source, signalling/waiting-on/killing
a process, spawning a pipeline process. -/
inductive Act where
  | probe (result : Bool)
  | terminate (pid : Nat)
  | waitGrace (pid : Nat) (timeoutSec : Nat)
  | kill (pid : Nat)
  | spawnInput (pid : Nat) (use_rtmp : Bool)
  | spawnRelay (pid : Nat)
deriving DecidableEq

/-- Per-tick environment: the value `check_rtmp_stream` would return if
invoked, whether `poll()` on a given process reports an exit status, and
whether a terminated process exits within the 5-second grace wait (if not,
`subprocess.TimeoutExpired` is raised and the process is killed). -/
structure Env where
  probe : Bool
  exited : Nat → Bool
  gracefulOk : Nat → Bool

/-- The graceful-then-forceful termination sequence used before replacing an
Input process (stream_manager.py lines 286-292): `terminate()`, `wait`
up to the grace timeout, `kill()` only if the wait timed out. -/
def terminate_sequence (env : Env) (pid : Nat) (timeoutSec : Nat) : List Act :=
  [Act.terminate pid, Act.waitGrace pid timeoutSec]
    ++ (if env.gracefulOk pid then [] else [Act.kill pid])

/-- Model of `StreamManager.start_input_stream` (stream_manager.py lines
284-307): terminate any existing input process with the
graceful-then-forceful sequence (grace 5s), then spawn the new process and
set `is_rtmp_input_active` to the requested mode. -/
def start_input_stream (env : Env) (s : MState) (use_rtmp_input : Bool) :
    MState × List Act :=
  let tr0 : List Act :=
    match s.input_process with
    | some p => terminate_sequence env p.pid 5
    | none => []
  ({ input_process := some ⟨s.next_pid, use_rtmp_input⟩,
     relay_process := s.relay_process,
     is_rtmp_input_active := use_rtmp_input,
     next_pid := s.next_pid + 1 },
   tr0 ++ [Act.spawnInput s.next_pid use_rtmp_input])

/-- Model of `StreamManager.start_relay_stream` (stream_manager.py lines
309-329): if a relay handle exists the call logs a warning and returns
without doing anything; otherwise it spawns the relay process. -/
def start_relay_stream (s : MState) : MState × List Act :=
  match s.relay_process with
  | some _ => (s, [])
  | none =>
    ({ s with relay_process := some s.next_pid, next_pid := s.next_pid + 1 },
     [Act.spawnRelay s.next_pid])

/-- Step 1 of a monitor tick (stream_manager.py lines 336-341): while the
RTMP input is active the source is assumed available without probing;
otherwise `check_rtmp_stream` runs and its result is used. -/
def tick_probe (env : Env) (s : MState) : Bool × List Act :=
  if s.is_rtmp_input_active then (true, [])
  else (env.probe, [Act.probe env.probe])

/-- Step 2 of a monitor tick (stream_manager.py lines 344-346): switch from
fallback to the RTMP input when it is available and not already active. -/
def tick_switch (env : Env) (rtmp_available : Bool) (s : MState) :
    MState × List Act :=
  if rtmp_available && !s.is_rtmp_input_active then start_input_stream env s true
  else (s, [])

/-- Step 3 of a monitor tick (stream_manager.py lines 352-357): if the input
process polls as exited, restart it with `use_rtmp_input := rtmp_available`
(the value computed in step 1). -/
def tick_input_check (env : Env) (rtmp_available : Bool) (s : MState) :
    MState × List Act :=
  match s.input_process with
  | some p =>
    if env.exited p.pid then start_input_stream env s rtmp_available else (s, [])
  | none => (s, [])

/-- Step 4 of a monitor tick (stream_manager.py lines 360-366): if the relay
process polls as exited, clear the handle and call `start_relay_stream`. -/
def tick_relay_check (env : Env) (s : MState) : MState × List Act :=
  match s.relay_process with
  | some q =>
    if env.exited q then start_relay_stream { s with relay_process := none }
    else (s, [])
  | none => (s, [])

/-- One iteration of the `while` body of `StreamManager.monitor_stream`
(stream_manager.py lines 335-368), as the composition of its four steps;
the returned trace lists the tick's observable actions in program order. -/
def monitor_tick (env : Env) (s0 : MState) : MState × List Act :=
  let st1 := tick_probe env s0
  let st2 := tick_switch env st1.1 s0
  let st3 := tick_input_check env st1.1 st2.1
  let st4 := tick_relay_check env st3.1
  (st4.1, st1.2 ++ st2.2 ++ st3.2 ++ st4.2)

/-- No probe action occurs in the trace of `tr`. -/
def noProbe (tr : List Act) : Prop := ∀ r, Act.probe r ∉ tr

/-- The tick restarted the relay: some relay process was spawned and is the
relay handle afterwards. -/
def relayRestarted (tr : List Act) (s : MState) : Prop :=
  ∃ q2, Act.spawnRelay q2 ∈ tr ∧ s.relay_process = some q2

/-- Attribute names defined on `StreamManager` instances: fields assigned in
`__init__` (stream_manager.py lines 28-33) and the class's methods. The
names `is_rtsp_active` and `check_rtsp_stream` that `app.py` reads are not
among them. -/
def streamManagerAttrs : List String :=
  ["config", "input_process", "relay_process", "shutdown_event",
   "is_rtmp_input_active", "local_rtmp",
   "_load_config", "_signal_handler", "check_rtmp_stream",
   "_build_audio_encoding_options", "build_input_command",
   "build_relay_command", "start_input_stream", "start_relay_stream",
   "monitor_stream", "stop", "run"]

/-- Result of evaluating a Python expression that may raise
`AttributeError`. -/
inductive PyResult (α : Type) where
  | ok (v : α)
  | attributeError (missingAttr : String)
deriving DecidableEq

/-- The status record that `get_stream_status` in app.py builds
(keys `running`, `source`, `rtsp_available`). -/
structure StatusRecord where
  running : Bool
  source : String
  rtsp_available : Bool
deriving DecidableEq

/-- Model of `get_stream_status` (app.py lines 73-88). `alive` states
whether a manager exists and its thread is alive. In the running branch the
code evaluates `stream_manager.is_rtsp_active` and then
`stream_manager.check_rtsp_stream()`; each access raises `AttributeError`
unless the name is an attribute of `StreamManager`. The parameters
`is_rtsp_active_val` and `check_val` stand for the values those attributes
would have if they existed. -/
def get_stream_status (alive : Bool) (is_rtsp_active_val check_val : Bool) :
    PyResult StatusRecord :=
  if alive = false then .ok ⟨false, "none", false⟩
  else if "is_rtsp_active" ∈ streamManagerAttrs then
    if "check_rtsp_stream" ∈ streamManagerAttrs then
      .ok ⟨true, if is_rtsp_active_val then "rtsp" else "fallback", check_val⟩
    else .attributeError "check_rtsp_stream"
  else .attributeError "is_rtsp_active"

/-! Helper lemmas. -/

theorem data_append (s t : String) : (s ++ t).data = s.data ++ t.data := rfl

/-- A pair of consecutive arguments `k, v` occurs somewhere in the command
list `c`. -/
def optPair (c : List String) (k v : String) : Prop :=
  ∃ s t, c = s ++ k :: v :: t

theorem optPair_append_left {k v : String} (s t : List String)
    {mid : List String} (h : optPair mid k v) : optPair (s ++ mid ++ t) k v := by
  obtain ⟨a, b, hm⟩ := h
  exact ⟨s ++ a, b ++ t, by simp [hm, List.append_assoc]⟩

theorem digitsUAux_all_digits (rest : List Char)
    (h : ∀ c ∈ rest, isAsciiDigit c = true) (acc : Nat) :
    digitsUAux acc rest = some (rest.foldl (fun a c => a * 10 + pyDigitVal c) acc) := by
  induction rest generalizing acc with
  | nil => rfl
  | cons c r ih =>
    have hc : isAsciiDigit c = true := h c (by simp)
    have hcu : ¬ (c = '_') := by
      intro hne
      rw [hne] at hc
      exact absurd hc (by decide)
    rw [digitsUAux.eq_def]
    simp only [if_neg hcu, if_pos hc, List.foldl_cons]
    exact ih (fun d hd => h d (by simp [hd])) _

theorem digitsU_all_digits (ds : List Char) (hne : ds ≠ [])
    (h : ∀ c ∈ ds, isAsciiDigit c = true) :
    digitsU ds = some (natFromDigits ds) := by
  cases ds with
  | nil => exact absurd rfl hne
  | cons c r =>
    have hc : isAsciiDigit c = true := h c (by simp)
    rw [digitsU, if_pos hc, natFromDigits, List.foldl_cons]
    have : (0 : Nat) * 10 + pyDigitVal c = pyDigitVal c := by omega
    rw [this]
    exact digitsUAux_all_digits r (fun d hd => h d (by simp [hd])) _

theorem dropWhile_of_head_digit {p : Char → Bool}
    (hp : ∀ c, isAsciiDigit c = true → p c = false)
    (ds : List Char) (h : ∀ c ∈ ds, isAsciiDigit c = true) :
    ds.dropWhile p = ds := by
  cases ds with
  | nil => rfl
  | cons c r =>
    have hc : p c = false := hp c (h c (by simp))
    simp [List.dropWhile_cons, hc]

theorem stripPy_all_digits (ds : List Char)
    (h : ∀ c ∈ ds, isAsciiDigit c = true) : stripPy ds = ds := by
  have hsp : ∀ c, isAsciiDigit c = true → isPySpace c = false := by
    intro c hc
    have hrange : 48 ≤ c.toNat := by
      have := hc
      simp only [isAsciiDigit, Bool.and_eq_true, decide_eq_true_eq] at this
      exact this.1
    have hne : c ≠ ' ' ∧ c ≠ '\t' ∧ c ≠ '\n' ∧ c ≠ '\r' ∧ c ≠ '\x0b' ∧ c ≠ '\x0c' := by
      refine ⟨?_, ?_, ?_, ?_, ?_, ?_⟩ <;>
        (intro he; rw [he] at hrange; exact absurd hrange (by decide))
    simp [isPySpace, hne.1, hne.2.1, hne.2.2.1, hne.2.2.2.1, hne.2.2.2.2.1, hne.2.2.2.2.2]
  have h1 : ds.dropWhile isPySpace = ds := dropWhile_of_head_digit hsp ds h
  have h2 : ds.reverse.dropWhile isPySpace = ds.reverse :=
    dropWhile_of_head_digit hsp ds.reverse (by
      intro c hc
      exact h c (List.mem_reverse.mp hc))
  rw [stripPy, h1, h2, List.reverse_reverse]

theorem pyIntOfString_all_digits (ds : List Char) (hne : ds ≠ [])
    (h : ∀ c ∈ ds, isAsciiDigit c = true) :
    pyIntOfString (String.mk ds) = some ((natFromDigits ds : Nat) : Int) := by
  have hdata : (String.mk ds).data = ds := rfl
  rw [pyIntOfString, hdata, stripPy_all_digits ds h]
  cases ds with
  | nil => exact absurd rfl hne
  | cons c r =>
    have hc : isAsciiDigit c = true := h c (by simp)
    have hplus : ¬ (c = '+') := by
      intro he; rw [he] at hc; exact absurd hc (by decide)
    have hminus : ¬ (c = '-') := by
      intro he; rw [he] at hc; exact absurd hc (by decide)
    simp only [if_neg hplus, if_neg hminus]
    rw [digitsU_all_digits (c :: r) (by simp) h]
    rfl

theorem rstripK_digits_k (ds : List Char)
    (h : ∀ c ∈ ds, isAsciiDigit c = true) :
    rstripK (String.mk (ds ++ ['k'])) = String.mk ds := by
  have hdig : ds.reverse.dropWhile (fun c => c = 'k') = ds.reverse := by
    apply dropWhile_of_head_digit
    · intro c hc
      have hck : ¬ (c = 'k') := by
        intro he; rw [he] at hc; exact absurd hc (by decide)
      simp [hck]
    · intro c hc
      exact h c (List.mem_reverse.mp hc)
  have hdata : (String.mk (ds ++ ['k'])).data = ds ++ ['k'] := rfl
  rw [rstripK, hdata, List.reverse_append]
  simp only [List.reverse_singleton, List.singleton_append, List.dropWhile_cons]
  rw [if_pos (by decide), hdig, List.reverse_reverse]

theorem si_relay (env : Env) (s : MState) (u : Bool) :
    (start_input_stream env s u).1.relay_process = s.relay_process := rfl

theorem si_active (env : Env) (s : MState) (u : Bool) :
    (start_input_stream env s u).1.is_rtmp_input_active = u := rfl

theorem si_input (env : Env) (s : MState) (u : Bool) :
    (start_input_stream env s u).1.input_process = some ⟨s.next_pid, u⟩ := rfl

theorem sr_active (s : MState) :
    (start_relay_stream s).1.is_rtmp_input_active = s.is_rtmp_input_active := by
  rw [start_relay_stream]
  split <;> rfl

theorem si_trace_no_probe (env : Env) (s : MState) (u : Bool) (r : Bool) :
    Act.probe r ∉ (start_input_stream env s u).2 := by
  cases h : s.input_process with
  | none => simp [start_input_stream, h]
  | some p =>
    simp only [start_input_stream, h, terminate_sequence]
    split <;> simp

theorem sr_trace_no_probe (s : MState) (r : Bool) :
    Act.probe r ∉ (start_relay_stream s).2 := by
  rw [start_relay_stream]
  split <;> simp

theorem tick_switch_relay (env : Env) (ra : Bool) (s : MState) :
    (tick_switch env ra s).1.relay_process = s.relay_process := by
  rw [tick_switch]
  split
  · exact si_relay env s true
  · rfl

theorem tick_input_check_relay (env : Env) (ra : Bool) (s : MState) :
    (tick_input_check env ra s).1.relay_process = s.relay_process := by
  rw [tick_input_check]
  split
  · split
    · exact si_relay env s ra
    · rfl
  · rfl

theorem tick_relay_check_active (env : Env) (s : MState) :
    (tick_relay_check env s).1.is_rtmp_input_active = s.is_rtmp_input_active := by
  rw [tick_relay_check]
  split
  · split
    · exact sr_active _
    · rfl
  · rfl

theorem tick_switch_trace_no_probe (env : Env) (ra : Bool) (s : MState) (r : Bool) :
    Act.probe r ∉ (tick_switch env ra s).2 := by
  rw [tick_switch]
  split
  · exact si_trace_no_probe env s true r
  · simp

theorem tick_input_check_trace_no_probe (env : Env) (ra : Bool) (s : MState)
    (r : Bool) : Act.probe r ∉ (tick_input_check env ra s).2 := by
  rw [tick_input_check]
  split
  · split
    · exact si_trace_no_probe env s ra r
    · simp
  · simp

theorem tick_relay_check_trace_no_probe (env : Env) (s : MState) (r : Bool) :
    Act.probe r ∉ (tick_relay_check env s).2 := by
  rw [tick_relay_check]
  split
  · split
    · exact sr_trace_no_probe _ r
    · simp
  · simp

theorem tick_probe_of_active (env : Env) (s : MState)
    (h : s.is_rtmp_input_active = true) : tick_probe env s = (true, []) := by
  simp [tick_probe, h]

theorem tick_switch_of_active (env : Env) (ra : Bool) (s : MState)
    (h : s.is_rtmp_input_active = true) : tick_switch env ra s = (s, []) := by
  simp [tick_switch, h]

theorem tick_switch_of_false (env : Env) (s : MState) :
    tick_switch env false s = (s, []) := by
  simp [tick_switch]

theorem tick_input_check_active_false (env : Env) (s : MState)
    (h : s.is_rtmp_input_active = false) :
    (tick_input_check env false s).1.is_rtmp_input_active = false := by
  rw [tick_input_check]
  split
  · split
    · exact si_active env s false
    · exact h
  · exact h

/-- Concrete environment and state for the C1 scenario: the Input pipeline
(process 0) is running in Primary mode (`is_rtmp_input_active = True`), the
relay is process 1, and every process polls as exited; the probe would
report the source unreachable if it were consulted. -/
def envC1 : Env := ⟨false, fun _ => true, fun _ => true⟩

def sC1 : MState := ⟨some ⟨0, true⟩, some 1, true, 2⟩

/-- C1, counterexample to the claim as stated: with the Input pipeline
crashed while SourceState=Primary (state `sC1`), the next monitor tick
performs no availability probe at all — even though the probe would report
the primary unreachable (`envC1.probe = false`) — and restarts the Input
pipeline in Primary mode (`spawnInput 2 true`). The claim says the tick
re-probes before deciding the restart mode rather than blindly retrying
Primary; the code blindly retries Primary (stream_manager.py lines 338-339
skip the probe whenever `is_rtmp_input_active`, and line 357 restarts with
`use_rtmp_input=rtmp_available`, which was hard-set to `True`). -/
theorem C1_cex :
    Act.probe true ∉ (monitor_tick envC1 sC1).2 ∧
    Act.probe false ∉ (monitor_tick envC1 sC1).2 ∧
    Act.spawnInput 2 true ∈ (monitor_tick envC1 sC1).2 ∧
    (monitor_tick envC1 sC1).1.is_rtmp_input_active = true := by
  refine ⟨?_, ?_, ?_, ?_⟩ <;> decide

/-- C1, amended: if the Input pipeline is found exited while
SourceState=Primary, the next monitor tick does not probe the primary
source at all (Primary is assumed reachable while it is the active source)
and restarts the Input pipeline in Primary mode using that assumed value,
leaving SourceState=Primary. -/
theorem C1_thm (env : Env) (s0 : MState) (p : ProcI)
    (hA : s0.is_rtmp_input_active = true)
    (hP : s0.input_process = some p)
    (hE : env.exited p.pid = true) :
    noProbe (monitor_tick env s0).2 ∧
    Act.spawnInput s0.next_pid true ∈ (monitor_tick env s0).2 ∧
    (monitor_tick env s0).1.is_rtmp_input_active = true := by
  have h1 : tick_probe env s0 = (true, []) := tick_probe_of_active env s0 hA
  have h2 : tick_switch env true s0 = (s0, []) := tick_switch_of_active env true s0 hA
  have h3 : tick_input_check env true s0 = start_input_stream env s0 true := by
    rw [tick_input_check, hP]
    simp [hE]
  have hmt : monitor_tick env s0 =
      ((tick_relay_check env (start_input_stream env s0 true).1).1,
       [] ++ [] ++ (start_input_stream env s0 true).2 ++
         (tick_relay_check env (start_input_stream env s0 true).1).2) := by
    rw [monitor_tick, h1]
    simp only [h2, h3]
  rw [hmt]
  refine ⟨?_, ?_, ?_⟩
  · intro r
    simp only [List.nil_append, List.mem_append]
    rintro (hin | hin)
    · exact si_trace_no_probe env s0 true r hin
    · exact tick_relay_check_trace_no_probe env _ r hin
  · simp only [List.nil_append, List.mem_append]
    left
    cases hip : s0.input_process with
    | none => simp [start_input_stream, hip]
    | some q => simp [start_input_stream, hip]
  · rw [tick_relay_check_active, si_active]

/-- C1, witness for the amended theorem at the concrete crash scenario. -/
theorem C1_wit :
    Act.spawnInput 2 true ∈ (monitor_tick envC1 sC1).2 ∧
    (monitor_tick envC1 sC1).1.is_rtmp_input_active = true ∧
    Act.probe false ∉ (monitor_tick envC1 sC1).2 := by
  have h := C1_thm envC1 sC1 ⟨0, true⟩ rfl rfl rfl
  exact ⟨h.2.1, h.2.2, h.1 false⟩

/-- C2, as claimed (confirmed): on every monitor tick the availability probe
runs if and only if `is_rtmp_input_active` is false (SourceState=Fallback);
and whenever a tick moves the manager from Fallback to Primary (so no Input
pipeline was attached to the primary source at the start of the tick), the
probe ran on that tick and succeeded. -/
theorem C2_thm (env : Env) (s0 : MState) :
    ((∃ r, Act.probe r ∈ (monitor_tick env s0).2) ↔
      s0.is_rtmp_input_active = false) ∧
    (s0.is_rtmp_input_active = false →
      (monitor_tick env s0).1.is_rtmp_input_active = true →
      env.probe = true ∧ Act.probe true ∈ (monitor_tick env s0).2) := by
  cases hA : s0.is_rtmp_input_active with
  | true =>
    have h1 : tick_probe env s0 = (true, []) := tick_probe_of_active env s0 hA
    constructor
    · constructor
      · rintro ⟨r, hr⟩
        exfalso
        rw [monitor_tick, h1] at hr
        simp only [List.nil_append, List.mem_append] at hr
        rcases hr with (h | h) | h
        · exact tick_switch_trace_no_probe env _ s0 r h
        · exact tick_input_check_trace_no_probe env _ _ r h
        · exact tick_relay_check_trace_no_probe env _ r h
      · intro hf
        exact absurd hf (by simp [hA])
    · intro hf
      exact absurd hf (by simp [hA])
  | false =>
    have h1 : tick_probe env s0 = (env.probe, [Act.probe env.probe]) := by
      simp [tick_probe, hA]
    have hmem : Act.probe env.probe ∈ (monitor_tick env s0).2 := by
      rw [monitor_tick, h1]
      simp
    constructor
    · exact ⟨fun _ => rfl, fun _ => ⟨env.probe, hmem⟩⟩
    · intro _ hres
      cases hpr : env.probe with
      | true => exact ⟨rfl, by rw [hpr] at hmem; exact hmem⟩
      | false =>
        exfalso
        rw [monitor_tick, h1, hpr] at hres
        simp only at hres
        rw [tick_switch_of_false] at hres
        simp only at hres
        rw [tick_relay_check_active] at hres
        rw [tick_input_check_active_false env s0 hA] at hres
        exact absurd hres (by simp)

/-- Concrete environment and state for the C2 witness: the manager is in
Fallback mode with the fallback Input as process 0, the probe reports the
primary reachable, and no process has exited. -/
def envC2 : Env := ⟨true, fun _ => false, fun _ => true⟩

def sC2 : MState := ⟨some ⟨0, false⟩, some 1, false, 2⟩

/-- C2, witness: at the concrete Fallback state the tick transitions to
Primary, and the theorem yields that the probe ran and succeeded. -/
theorem C2_wit : envC2.probe = true ∧ Act.probe true ∈ (monitor_tick envC2 sC2).2 :=
  (C2_thm envC2 sC2).2 rfl (by decide)

/-- C3, as claimed (confirmed): on any monitor tick in which the relay
process polls as exited, the relay pipeline is restarted within that same
tick — a new relay process is spawned and attached — regardless of
`is_rtmp_input_active` (the tick state is universally quantified). -/
theorem C3_thm (env : Env) (s0 : MState) (q : Nat)
    (hR : s0.relay_process = some q)
    (hE : env.exited q = true) :
    relayRestarted (monitor_tick env s0).2 (monitor_tick env s0).1 := by
  have hrel2 : (tick_switch env (tick_probe env s0).1 s0).1.relay_process = some q := by
    rw [tick_switch_relay]; exact hR
  have hrel3 : (tick_input_check env (tick_probe env s0).1
      (tick_switch env (tick_probe env s0).1 s0).1).1.relay_process = some q := by
    rw [tick_input_check_relay]; exact hrel2
  set s2 := (tick_input_check env (tick_probe env s0).1
      (tick_switch env (tick_probe env s0).1 s0).1).1 with hs2
  have h4 : tick_relay_check env s2 =
      start_relay_stream { s2 with relay_process := none } := by
    rw [tick_relay_check, hrel3]
    simp [hE]
  have h5 : start_relay_stream { s2 with relay_process := none } =
      ({ s2 with relay_process := some s2.next_pid, next_pid := s2.next_pid + 1 },
       [Act.spawnRelay s2.next_pid]) := rfl
  refine ⟨s2.next_pid, ?_, ?_⟩
  · rw [monitor_tick]
    simp only [← hs2, h4, h5]
    simp
  · rw [monitor_tick]
    simp only [← hs2, h4, h5]

/-- Concrete environment and state for the C3 witness: SourceState=Primary,
only the relay process (pid 1) has exited. -/
def envC3 : Env := ⟨false, fun p => p == 1, fun _ => true⟩

def sC3 : MState := ⟨some ⟨0, true⟩, some 1, true, 2⟩

/-- C3, witness: at the concrete state the crashed relay (pid 1) is replaced
by a freshly spawned relay process (pid 2) within the same tick. -/
theorem C3_wit :
    Act.spawnRelay 2 ∈ (monitor_tick envC3 sC3).2 ∧
    (monitor_tick envC3 sC3).1.relay_process = some 2 := by
  obtain ⟨q2, h1, h2⟩ := C3_thm envC3 sC3 1 rfl rfl
  have h3 : (monitor_tick envC3 sC3).1.relay_process = some 2 := by decide
  rw [h3] at h2
  have h4 : q2 = 2 := by
    injection h2 with h5
    exact h5.symm
  rw [h4] at h1
  exact ⟨h1, h3⟩

/-- An argument string that sets a per-output-track audio codec: it begins
with `-c:a` (matching both the single-track `-c:a` and the per-track
`-c:a:i` forms emitted by `_build_audio_encoding_options`). -/
def isTrackCodecOpt (x : String) : Bool :=
  match x.data with
  | '-' :: 'c' :: ':' :: 'a' :: _ => true
  | _ => false

/-- Number of audio tracks configured by an option list: one per audio-codec
assignment. -/
def countTracks (opts : List String) : Nat :=
  (opts.filter isTrackCodecOpt).length

theorem itco_c (s : String) : isTrackCodecOpt ("-c:a:" ++ s) = true := by
  have h : ("-c:a:" ++ s).data = '-' :: 'c' :: ':' :: 'a' :: ':' :: s.data := by
    rw [data_append]; rfl
  rw [isTrackCodecOpt, h]; rfl

theorem itco_zq (s : String) : isTrackCodecOpt ("0:a:" ++ s ++ "?") = false := by
  have h : ("0:a:" ++ s ++ "?").data = '0' :: ':' :: 'a' :: ':' :: (s.data ++ "?".data) := by
    rw [data_append, data_append, List.append_assoc]; rfl
  rw [isTrackCodecOpt, h]; rfl

theorem itco_b (s : String) : isTrackCodecOpt ("-b:a:" ++ s) = false := by
  have h : ("-b:a:" ++ s).data = '-' :: 'b' :: ':' :: 'a' :: ':' :: s.data := by
    rw [data_append]; rfl
  rw [isTrackCodecOpt, h]; rfl

theorem itco_ar (s : String) : isTrackCodecOpt ("-ar:" ++ s) = false := by
  have h : ("-ar:" ++ s).data = '-' :: 'a' :: 'r' :: ':' :: s.data := by
    rw [data_append]; rfl
  rw [isTrackCodecOpt, h]; rfl

theorem itco_ac (s : String) : isTrackCodecOpt ("-ac:" ++ s) = false := by
  have h : ("-ac:" ++ s).data = '-' :: 'a' :: 'c' :: ':' :: s.data := by
    rw [data_append]; rfl
  rw [isTrackCodecOpt, h]; rfl

theorem filter_audio_track_block (b : String) (i : Nat)
    (hb : isTrackCodecOpt b = false) :
    (audio_track_block b i).filter isTrackCodecOpt = ["-c:a:" ++ toString i] := by
  simp [audio_track_block, List.filter, itco_c, itco_zq, itco_b, itco_ar, itco_ac, hb,
    show isTrackCodecOpt "-map" = false from rfl,
    show isTrackCodecOpt "aac" = false from rfl,
    show isTrackCodecOpt "44100" = false from rfl,
    show isTrackCodecOpt "2" = false from rfl]

theorem countTracks_blocks (b : String) (hb : isTrackCodecOpt b = false) :
    ∀ n : Nat, countTracks ((List.range n).flatMap (audio_track_block b)) = n := by
  intro n
  induction n with
  | zero => rfl
  | succ k ih =>
    rw [List.range_succ, List.flatMap_append, countTracks, List.filter_append,
      List.length_append]
    rw [countTracks] at ih
    rw [ih]
    have h1 : ([k] : List Nat).flatMap (audio_track_block b) = audio_track_block b k := by
      simp
    rw [h1, filter_audio_track_block b k hb]
    rfl

/-- Configuration for the C4 counterexample: multi-audio enabled with
`audio_tracks = 0`. -/
def cfgC4 : Config := { defaultConfig with multi_audio_enabled := true, audio_tracks := 0 }

/-- C4, counterexample to the claim as stated: with `multi_audio_enabled`
and `audio_tracks = 0`, the built audio options contain zero tracks (in
fact the option list is empty), whereas the claim requires
`max(1, min(0, 3)) = 1` and membership in `[1,3]`. The code only applies
`min(audio_tracks, 3)` (stream_manager.py line 133) with no lower clamp. -/
theorem C4_cex :
    build_audio_encoding_options cfgC4 = [] ∧
    countTracks (build_audio_encoding_options cfgC4) = 0 := by
  constructor <;> rfl

/-- C4, amended: the number of audio tracks in the built options is
`min(audio_tracks, 3)` clamped below at zero (so 0 for non-positive
`audio_tracks`) when `multi_audio_enabled`, and exactly 1 otherwise; it
lies in `[1,3]` only under the extra assumption `audio_tracks ≥ 1`. The
hypothesis excludes the degenerate case of an `audio_bitrate` string that
itself spells an audio-codec option. -/
theorem C4_thm (cfg : Config) (hb : isTrackCodecOpt cfg.audio_bitrate = false) :
    countTracks (build_audio_encoding_options cfg) =
      (if cfg.multi_audio_enabled then (min cfg.audio_tracks 3).toNat else 1) ∧
    (cfg.multi_audio_enabled → 1 ≤ cfg.audio_tracks →
      1 ≤ countTracks (build_audio_encoding_options cfg) ∧
      countTracks (build_audio_encoding_options cfg) ≤ 3) := by
  have hmain : countTracks (build_audio_encoding_options cfg) =
      (if cfg.multi_audio_enabled then (min cfg.audio_tracks 3).toNat else 1) := by
    rw [build_audio_encoding_options]
    cases hm : cfg.multi_audio_enabled with
    | true =>
      simp only [if_pos rfl]
      exact countTracks_blocks cfg.audio_bitrate hb _
    | false =>
      simp only [Bool.false_eq_true, if_neg (fun hc => Bool.false_ne_true hc)]
      simp [countTracks, List.filter, hb,
        show isTrackCodecOpt "-c:a" = true from rfl,
        show isTrackCodecOpt "aac" = false from rfl,
        show isTrackCodecOpt "-b:a" = false from rfl,
        show isTrackCodecOpt "-ar" = false from rfl,
        show isTrackCodecOpt "-ac" = false from rfl,
        show isTrackCodecOpt "44100" = false from rfl,
        show isTrackCodecOpt "2" = false from rfl]
  refine ⟨hmain, ?_⟩
  intro hm h1
  rw [hmain, if_pos hm]
  omega

/-- Configuration matching the spec's clamping scenario:
`multi_audio_enabled = true`, `audio_track_count = 5`. -/
def cfgC4w : Config := { defaultConfig with multi_audio_enabled := true, audio_tracks := 5 }

/-- C4, witness for the amended theorem: with 5 configured tracks the built
options carry exactly 3 tracks, which lies in `[1,3]`. -/
theorem C4_wit :
    countTracks (build_audio_encoding_options cfgC4w) =
      (if cfgC4w.multi_audio_enabled then (min cfgC4w.audio_tracks 3).toNat else 1) ∧
    1 ≤ countTracks (build_audio_encoding_options cfgC4w) ∧
    countTracks (build_audio_encoding_options cfgC4w) ≤ 3 := by
  have h := C4_thm cfgC4w (by decide)
  exact ⟨h.1, (h.2 rfl (by decide)).1, (h.2 rfl (by decide)).2⟩

/-- C5, counterexample state: no Input process, but a live Relay handle
(pid 7). -/
def sC5 : MState := ⟨none, some 7, false, 8⟩

/-- C5, counterexample to the claim as stated: invoking the Relay start
operation while a Relay process is attached performs no
graceful-then-forceful termination at all — it is an early return that
leaves the old handle in place and spawns nothing (stream_manager.py lines
311-313) — contradicting the claim that starting a pipeline for a role
first terminates any existing process of that role before spawning. -/
theorem C5_cex :
    start_relay_stream sC5 = (sC5, []) ∧
    Act.terminate 7 ∉ (start_relay_stream sC5).2 ∧
    Act.kill 7 ∉ (start_relay_stream sC5).2 ∧
    (start_relay_stream sC5).1.relay_process = some 7 := by
  refine ⟨rfl, ?_, ?_, rfl⟩ <;> decide

/-- C5, amended: (Input role) starting the Input pipeline with a process
attached first emits the graceful-then-forceful sequence — `terminate`,
`wait` with 5s grace, `kill` exactly when the grace wait times out — and
only then spawns the new process, which becomes the unique Input handle;
(Relay role) starting the Relay pipeline while a handle exists is an early
return that neither terminates the old process nor spawns a new one, so
the Relay role also keeps at most one handle, but without any termination
sequence. -/
theorem C5_thm :
    (∀ (env : Env) (s : MState) (p : ProcI) (u : Bool),
      s.input_process = some p →
      (start_input_stream env s u).2 =
        (Act.terminate p.pid :: Act.waitGrace p.pid 5 ::
          (if env.gracefulOk p.pid then [] else [Act.kill p.pid])) ++
          [Act.spawnInput s.next_pid u] ∧
      (start_input_stream env s u).1.input_process = some ⟨s.next_pid, u⟩) ∧
    (∀ (s : MState) (q : Nat), s.relay_process = some q →
      start_relay_stream s = (s, [])) := by
  constructor
  · intro env s p u h
    constructor
    · simp [start_input_stream, h, terminate_sequence]
    · rfl
  · intro s q h
    simp [start_relay_stream, h]

/-- C5, witness environment and states: Input process 3 is attached and
will not exit within the grace window (forcing a kill), and `sC5` holds an
attached relay handle. -/
def envC5 : Env := ⟨false, fun _ => true, fun _ => false⟩

def sC5i : MState := ⟨some ⟨3, true⟩, some 4, true, 9⟩

/-- C5, witness for the amended theorem: replacing Input process 3 emits
terminate, grace wait, kill (the wait timed out), then the spawn of
process 9, which becomes the Input handle; the relay start with an
attached handle is a no-op. -/
theorem C5_wit :
    (start_input_stream envC5 sC5i true).2 =
      [Act.terminate 3, Act.waitGrace 3 5, Act.kill 3, Act.spawnInput 9 true] ∧
    (start_input_stream envC5 sC5i true).1.input_process = some ⟨9, true⟩ ∧
    start_relay_stream sC5 = (sC5, []) := by
  have h1 := C5_thm.1 envC5 sC5i ⟨3, true⟩ true rfl
  have h2 := C5_thm.2 sC5 7 rfl
  refine ⟨?_, h1.2, h2⟩
  rw [h1.1]
  rfl

/-- C6, as claimed (confirmed): the availability check returns a boolean
for every subprocess outcome — `false` on any non-zero exit code, on a
timeout and on any other invocation error, `true` only on exit code 0.
That it never propagates an exception is reflected in its type: every
outcome, including `RunOutcome.raised` (any exception inside the `try`),
is mapped to a `Bool` (stream_manager.py lines 123-125). -/
theorem C6_thm (rc : Int) :
    (rc ≠ 0 → check_rtmp_stream (.completed rc) = false) ∧
    check_rtmp_stream (.completed 0) = true ∧
    check_rtmp_stream .timedOut = false ∧
    check_rtmp_stream .raised = false := by
  refine ⟨?_, rfl, rfl, rfl⟩
  intro h
  simp [check_rtmp_stream, h]

/-- C6, witness: a non-zero exit (code 7) yields `false`, a timeout yields
`false`, and exit code 0 yields `true`. -/
theorem C6_wit :
    check_rtmp_stream (.completed 7) = false ∧
    check_rtmp_stream .timedOut = false ∧
    check_rtmp_stream (.completed 0) = true := by
  have h := C6_thm 7
  exact ⟨h.1 (by decide), h.2.2.1, h.2.1⟩

/-- The configured bitrate string is `<digits>k`: a nonempty run of ASCII
decimal digits followed by a single `'k'`. -/
def goodBitrate (s : String) (ds : List Char) : Prop :=
  ds ≠ [] ∧ (∀ c ∈ ds, isAsciiDigit c = true) ∧ s = String.mk (ds ++ ['k'])

theorem parse_goodBitrate {s : String} {ds : List Char}
    (h : goodBitrate s ds) :
    pyIntOfString (rstripK s) = some ((natFromDigits ds : Nat) : Int) := by
  obtain ⟨hne, hdig, hs⟩ := h
  rw [hs, rstripK_digits_k ds hdig]
  exact pyIntOfString_all_digits ds hne hdig

theorem vb_maxrate (cfg : Config) (bn : Int) :
    optPair (video_encoding_block cfg bn) "-maxrate" cfg.video_bitrate :=
  ⟨["-c:v", "libx264", "-preset", "veryfast", "-b:v", cfg.video_bitrate],
   ["-bufsize", toString (bn * 2) ++ "k", "-s", cfg.resolution,
    "-r", toString cfg.fps, "-g", toString (cfg.fps * 2), "-pix_fmt", "yuv420p"],
   rfl⟩

theorem vb_bufsize (cfg : Config) (bn : Int) :
    optPair (video_encoding_block cfg bn) "-bufsize" (toString (bn * 2) ++ "k") :=
  ⟨["-c:v", "libx264", "-preset", "veryfast", "-b:v", cfg.video_bitrate,
    "-maxrate", cfg.video_bitrate],
   ["-s", cfg.resolution, "-r", toString cfg.fps, "-g", toString (cfg.fps * 2),
    "-pix_fmt", "yuv420p"],
   rfl⟩

theorem vb_scale (cfg : Config) (bn : Int) :
    optPair (video_encoding_block cfg bn) "-s" cfg.resolution :=
  ⟨["-c:v", "libx264", "-preset", "veryfast", "-b:v", cfg.video_bitrate,
    "-maxrate", cfg.video_bitrate, "-bufsize", toString (bn * 2) ++ "k"],
   ["-r", toString cfg.fps, "-g", toString (cfg.fps * 2), "-pix_fmt", "yuv420p"],
   rfl⟩

theorem vb_rate (cfg : Config) (bn : Int) :
    optPair (video_encoding_block cfg bn) "-r" (toString cfg.fps) :=
  ⟨["-c:v", "libx264", "-preset", "veryfast", "-b:v", cfg.video_bitrate,
    "-maxrate", cfg.video_bitrate, "-bufsize", toString (bn * 2) ++ "k",
    "-s", cfg.resolution],
   ["-g", toString (cfg.fps * 2), "-pix_fmt", "yuv420p"],
   rfl⟩

theorem vb_gop (cfg : Config) (bn : Int) :
    optPair (video_encoding_block cfg bn) "-g" (toString (cfg.fps * 2)) :=
  ⟨["-c:v", "libx264", "-preset", "veryfast", "-b:v", cfg.video_bitrate,
    "-maxrate", cfg.video_bitrate, "-bufsize", toString (bn * 2) ++ "k",
    "-s", cfg.resolution, "-r", toString cfg.fps],
   ["-pix_fmt", "yuv420p"],
   rfl⟩

theorem vb_pixfmt (cfg : Config) (bn : Int) :
    optPair (video_encoding_block cfg bn) "-pix_fmt" "yuv420p" :=
  ⟨["-c:v", "libx264", "-preset", "veryfast", "-b:v", cfg.video_bitrate,
    "-maxrate", cfg.video_bitrate, "-bufsize", toString (bn * 2) ++ "k",
    "-s", cfg.resolution, "-r", toString cfg.fps, "-g", toString (cfg.fps * 2)],
   [],
   rfl⟩

theorem optPairs_of_block (cfg : Config) (bn : Int) (pre post c : List String)
    (hc : c = pre ++ video_encoding_block cfg bn ++ post) :
    optPair c "-maxrate" cfg.video_bitrate ∧
    optPair c "-bufsize" (toString (bn * 2) ++ "k") ∧
    optPair c "-s" cfg.resolution ∧
    optPair c "-r" (toString cfg.fps) ∧
    optPair c "-g" (toString (cfg.fps * 2)) ∧
    optPair c "-pix_fmt" "yuv420p" := by
  subst hc
  exact ⟨optPair_append_left pre post (vb_maxrate cfg bn),
    optPair_append_left pre post (vb_bufsize cfg bn),
    optPair_append_left pre post (vb_scale cfg bn),
    optPair_append_left pre post (vb_rate cfg bn),
    optPair_append_left pre post (vb_gop cfg bn),
    optPair_append_left pre post (vb_pixfmt cfg bn)⟩

/-- C7, as claimed (confirmed): for every configuration whose video bitrate
is a digit string followed by `k`, every built Input command — primary
mode, fallback-image mode and fallback-video mode alike — contains
`-maxrate <bitrate>`, `-bufsize <2x bitrate>k`, `-s <resolution>`,
`-r <fps>`, `-g <2*fps>` and `-pix_fmt yuv420p`. -/
theorem C7_thm (cfg : Config) (u : Bool) (ds : List Char)
    (h : goodBitrate cfg.video_bitrate ds) :
    (build_input_command cfg u).isSome = true ∧
    optPair ((build_input_command cfg u).getD []) "-maxrate" cfg.video_bitrate ∧
    optPair ((build_input_command cfg u).getD [])
      "-bufsize" (toString (((natFromDigits ds : Nat) : Int) * 2) ++ "k") ∧
    optPair ((build_input_command cfg u).getD []) "-s" cfg.resolution ∧
    optPair ((build_input_command cfg u).getD []) "-r" (toString cfg.fps) ∧
    optPair ((build_input_command cfg u).getD []) "-g" (toString (cfg.fps * 2)) ∧
    optPair ((build_input_command cfg u).getD []) "-pix_fmt" "yuv420p" := by
  have hp : pyIntOfString (rstripK cfg.video_bitrate) =
      some ((natFromDigits ds : Nat) : Int) := parse_goodBitrate h
  cases u with
  | true =>
    have hb : build_input_command cfg true =
        some (["ffmpeg", "-i", cfg.rtmp_input_url ++ "/obs"]
          ++ cfg.audio_sources.flatMap (fun a => ["-i", a])
          ++ video_encoding_block cfg ((natFromDigits ds : Nat) : Int)
          ++ build_audio_encoding_options cfg
          ++ ["-f", "flv", local_rtmp]) := by
      simp [build_input_command, hp]
    rw [hb]
    refine ⟨rfl, ?_⟩
    refine optPairs_of_block cfg ((natFromDigits ds : Nat) : Int)
      (["ffmpeg", "-i", cfg.rtmp_input_url ++ "/obs"]
        ++ cfg.audio_sources.flatMap (fun a => ["-i", a]))
      (build_audio_encoding_options cfg ++ ["-f", "flv", local_rtmp])
      _ ?_
    simp [List.append_assoc]
  | false =>
    by_cases ht : cfg.fallback_type = "image"
    · have hb : build_input_command cfg false =
          some (["ffmpeg", "-loop", "1", "-framerate", toString cfg.fps,
                 "-i", cfg.fallback_image]
            ++ (if cfg.multi_audio_enabled then
                  (List.range (min cfg.audio_tracks 3).toNat).flatMap
                    (fun _ => ["-f", "lavfi", "-i", anullsrc_arg])
                else ["-f", "lavfi", "-i", anullsrc_arg])
            ++ video_encoding_block cfg ((natFromDigits ds : Nat) : Int)
            ++ build_audio_encoding_options cfg
            ++ ["-shortest"]
            ++ ["-f", "flv", local_rtmp]) := by
        simp [build_input_command, hp, ht]
      rw [hb]
      refine ⟨rfl, ?_⟩
      refine optPairs_of_block cfg ((natFromDigits ds : Nat) : Int)
        (["ffmpeg", "-loop", "1", "-framerate", toString cfg.fps,
          "-i", cfg.fallback_image]
          ++ (if cfg.multi_audio_enabled then
                (List.range (min cfg.audio_tracks 3).toNat).flatMap
                  (fun _ => ["-f", "lavfi", "-i", anullsrc_arg])
              else ["-f", "lavfi", "-i", anullsrc_arg]))
        (build_audio_encoding_options cfg ++ ["-shortest"]
          ++ ["-f", "flv", local_rtmp])
        _ ?_
      simp [List.append_assoc]
    · have hb : build_input_command cfg false =
          some (["ffmpeg", "-stream_loop", "-1", "-re", "-i", cfg.fallback_video]
            ++ video_encoding_block cfg ((natFromDigits ds : Nat) : Int)
            ++ build_audio_encoding_options cfg
            ++ ["-f", "flv", local_rtmp]) := by
        simp [build_input_command, hp, ht]
      rw [hb]
      refine ⟨rfl, ?_⟩
      refine optPairs_of_block cfg ((natFromDigits ds : Nat) : Int)
        (["ffmpeg", "-stream_loop", "-1", "-re", "-i", cfg.fallback_video])
        (build_audio_encoding_options cfg ++ ["-f", "flv", local_rtmp])
        _ ?_
      simp [List.append_assoc]

/-- Configuration for the spec's C7 scenario: resolution 1280x720,
fps 30. -/
def cfgC7 : Config := { defaultConfig with resolution := "1280x720" }

/-- C7, witness at the spec scenario: resolution "1280x720" and fps 30
yield a primary-mode Input spec with `-s 1280x720`, `-r 30`, `-g 60`
(keyframe interval 60), maxrate equal to the bitrate and bufsize 5000k. -/
theorem C7_wit :
    (build_input_command cfgC7 true).isSome = true ∧
    optPair ((build_input_command cfgC7 true).getD []) "-maxrate" cfgC7.video_bitrate ∧
    optPair ((build_input_command cfgC7 true).getD [])
      "-bufsize" (toString (((natFromDigits ['2', '5', '0', '0'] : Nat) : Int) * 2) ++ "k") ∧
    optPair ((build_input_command cfgC7 true).getD []) "-s" cfgC7.resolution ∧
    optPair ((build_input_command cfgC7 true).getD []) "-r" (toString cfgC7.fps) ∧
    optPair ((build_input_command cfgC7 true).getD []) "-g" (toString (cfgC7.fps * 2)) ∧
    optPair ((build_input_command cfgC7 true).getD []) "-pix_fmt" "yuv420p" :=
  C7_thm cfgC7 true ['2', '5', '0', '0'] ⟨by decide, by decide, by decide⟩

/-- The arguments given as stream selectors to `-map` options, in order of
appearance. -/
def mapArgs : List String → List String
  | x :: y :: rest => if x = "-map" then y :: mapArgs (y :: rest) else mapArgs (y :: rest)
  | _ => []

/-- The arguments given as inputs to `-i` options, in order of
appearance: the n-th entry is ffmpeg input index n. -/
def inputArgs : List String → List String
  | x :: y :: rest => if x = "-i" then y :: inputArgs (y :: rest) else inputArgs (y :: rest)
  | _ => []

/-- Configuration for the C8 failing input: fallback-image mode with
multi-audio enabled and three tracks. -/
def cfgC8 : Config := { defaultConfig with multi_audio_enabled := true, audio_tracks := 3 }

/-- C8, evaluation of the code at the failing input (code bug): in the
fallback-image build with `multi_audio_enabled` and 3 tracks, the inputs
are the still image (ffmpeg input index 0) followed by the three
synthesized `anullsrc` silent-audio inputs (indices 1-3), but every
`-map` selector reads `0:a:i?` — an (optional, hence silently absent)
audio stream of input 0, the image, which has no audio. No map references
inputs 1-3, so none of the emitted audio tracks is fed from a synthesized
silent-audio input and the output carries no audio, contrary to the
claim (and to the code's own stated intent of generating silent audio for
the multi-track fallback, stream_manager.py lines 205-209). -/
theorem C8_thm :
    (build_input_command cfgC8 false).isSome = true ∧
    inputArgs ((build_input_command cfgC8 false).getD []) =
      [cfgC8.fallback_image, anullsrc_arg, anullsrc_arg, anullsrc_arg] ∧
    mapArgs ((build_input_command cfgC8 false).getD []) =
      ["0:a:0?", "0:a:1?", "0:a:2?"] := by
  refine ⟨rfl, rfl, rfl⟩

/-- C9, evaluation of the code (code bug): whenever a manager thread is
alive, `get_stream_status` raises `AttributeError` because it reads
`stream_manager.is_rtsp_active`, a name `StreamManager` does not define
(the class defines `is_rtmp_input_active`; likewise `check_rtsp_stream`
vs `check_rtmp_stream`). Only the not-running branch returns the claimed
record. So the status operation does not return a record without raising
for every state of the control surface. -/
theorem C9_thm :
    (∀ b c : Bool, get_stream_status true b c = .attributeError "is_rtsp_active") ∧
    (∀ b c : Bool, get_stream_status false b c = .ok ⟨false, "none", false⟩) :=
  ⟨fun _ _ => rfl, fun _ _ => rfl⟩

/-- C10, amended: building an Input command succeeds exactly when the
configured `video_bitrate`, after stripping trailing `'k'` characters,
parses as a Python base-10 integer literal (optional surrounding
whitespace, optional sign, digits with underscore separators) — in every
mode. A digit-only string is sufficient but, contrary to the claim, not
necessary. -/
theorem C10_thm (cfg : Config) (u : Bool) :
    (build_input_command cfg u).isSome =
      (pyIntOfString (rstripK cfg.video_bitrate)).isSome := by
  cases hp : pyIntOfString (rstripK cfg.video_bitrate) with
  | none => simp [build_input_command, hp]
  | some bn =>
    simp only [build_input_command, hp]
    cases u with
    | true => rfl
    | false =>
      by_cases ht : cfg.fallback_type = "image" <;> simp [ht]

/-- Configuration whose bitrate violates the claimed digits-only
precondition but still parses: Python `int("+2500")` succeeds. -/
def cfgC10 : Config := { defaultConfig with video_bitrate := "+2500k" }

/-- Configuration with the claim's example of a malformed bitrate. -/
def cfgC10m : Config := { defaultConfig with video_bitrate := "2.5M" }

/-- C10, counterexample to the claim as stated: with
`video_bitrate = "+2500k"` the stripped string `"+2500"` is not a string
of decimal digits, yet `build_input_command` succeeds (Python `int`
accepts a leading sign), so the digits-only condition is not necessary
for totality. The claim's own example `"2.5M"` does raise in every
mode. -/
theorem C10_cex :
    (build_input_command cfgC10 true).isSome = true ∧
    ((rstripK cfgC10.video_bitrate).data.all isAsciiDigit) = false ∧
    build_input_command cfgC10m true = none ∧
    build_input_command cfgC10m false = none := by
  refine ⟨rfl, rfl, rfl, rfl⟩

end TwitchFallback
